import Mathlib

/-
Verification of the yarukoto task-list manager (Django app).

The Lean definitions below are a shallow embedding of the Python sources:
  - src/todo/models.py        (TodoItem)
  - src/todo/params.py        (parameter normalisation)
  - src/todo/queries.py       (read queries, limit check)
  - src/todo/services.py      (mutation service, refresh-decision rules)
  - src/todo/views/*.py       (HTTP method guards, lookup-then-404 flow)

The database is modelled as a list of rows (`Store`); Django ORM filters
become `List.filter`, `order_by` becomes an insertion sort with the
corresponding comparator, and a row `save` is an explicit functional update
with the `updated_at` timestamp passed in as `now` (timestamps are Nat).
-/

namespace Yarukoto

/-- Embedding of `todo/models.py` `TodoItem`. Timestamps are abstract Nat
instants; `description` / `notes` lengths use `String.length`
(codepoints, matching Python `len`). -/
structure TodoItem where
  id : Nat
  user_id : Nat
  description : String
  notes : String
  completed : Bool
  created_at : Nat
  updated_at : Nat
deriving DecidableEq, Repr

/-- The backing table of `TodoItem` rows. -/
abbrev Store := List TodoItem

/-- Embedding of `TodoItem.objects.filter(user_id=user_id)`. -/
def userTodos (store : Store) (user_id : Nat) : List TodoItem :=
  store.filter (fun t => t.user_id == user_id)

-- =====================================================================
-- services.py: refresh-decision rules
-- =====================================================================

/-- Embedding of `services.needs_list_refresh_on_toggle`:
`status_filter != "all" or sort_key in {"active_first", "updated"}`. -/
def needs_list_refresh_on_toggle (status_filter sort_key : String) : Bool :=
  status_filter != "all" || (sort_key == "active_first" || sort_key == "updated")

/-- Embedding of `services.needs_list_refresh_on_edit`:
`False` when nothing changed, else `bool(query) or sort_key == "updated"`. -/
def needs_list_refresh_on_edit (changed : Bool) (query sort_key : String) : Bool :=
  if !changed then false
  else query != "" || sort_key == "updated"

-- =====================================================================
-- services.py: toggle
-- =====================================================================

/-- Embedding of the result dataclass `ToggleCompletionResult`. -/
structure ToggleCompletionResult where
  success : Bool
  todo_item : Option TodoItem
  old_status : Bool
deriving DecidableEq, Repr

/-- Embedding of `services.toggle_todo_completion`: records the old
`completed`, flips it, and saves with `update_fields=["completed",
"updated_at"]` (the save stamps `updated_at` with the current instant,
passed here as `now`). Returns the result and the saved row. -/
def toggle_todo_completion (todo_item : TodoItem) (now : Nat) :
    ToggleCompletionResult × TodoItem :=
  let old_status := todo_item.completed
  let saved := { todo_item with completed := !todo_item.completed, updated_at := now }
  ({ success := true, todo_item := some saved, old_status := old_status }, saved)

-- =====================================================================
-- queries.py: limit check
-- =====================================================================

/-- Insertion of a row into a list sorted by ascending `id`
(helper for the embedding of `order_by("id")`). -/
def insertById (t : TodoItem) : List TodoItem → List TodoItem
  | [] => [t]
  | h :: rest => if t.id ≤ h.id then t :: h :: rest else h :: insertById t rest

/-- Embedding of `order_by("id")`: insertion sort by ascending `id`. -/
def sortByIdAsc : List TodoItem → List TodoItem
  | [] => []
  | h :: rest => insertById h (sortByIdAsc rest)

/-- Embedding of `queries.is_todo_limit_reached`: `max_items <= 0` returns
True immediately; otherwise the user's rows are ordered by `id` and the
one-row slice `[max_items - 1 : max_items]` is tested for existence
(`.exists()` is emptiness of the slice, negated). `max_items` is an `Int`
because the Python parameter may be non-positive. -/
def is_todo_limit_reached (store : Store) (user_id : Nat) (max_items : Int) : Bool :=
  if max_items ≤ 0 then true
  else
    !((((sortByIdAsc (userTodos store user_id)).drop (max_items - 1).toNat).take 1).isEmpty)

-- =====================================================================
-- services.py: create
-- =====================================================================

/-- Embedding of the result dataclass `CreateTodoResult`. -/
structure CreateTodoResult where
  success : Bool
  todo_item : Option TodoItem
  error : Option String
deriving DecidableEq, Repr

/-- Embedding of `services.create_todo`: checks `is_todo_limit_reached` and
either fails with the limit message or inserts a fresh row created with
`completed=False`, empty notes, and both timestamps stamped at creation
(`auto_now_add` / `auto_now`). The fresh primary key is passed as `new_id`
and the current instant as `now`. -/
def create_todo (store : Store) (user_id : Nat) (description : String)
    (max_items : Int) (new_id now : Nat) : CreateTodoResult × Store :=
  if is_todo_limit_reached store user_id max_items then
    ({ success := false, todo_item := none,
       error := some s!"Todoは1ユーザーあたり最大{max_items}件までです。不要なTodoを削除してください。" },
     store)
  else
    let item : TodoItem :=
      { id := new_id, user_id := user_id, description := description,
        notes := "", completed := false, created_at := now, updated_at := now }
    ({ success := true, todo_item := some item, error := none }, store ++ [item])

-- =====================================================================
-- params.py: normalisation
-- =====================================================================

/-- Embedding of the `TodoFilterStatus` enum of `params.py`. -/
inductive TodoFilterStatus
  | all
  | active
  | completed
deriving DecidableEq, Repr

/-- Embedding of the `TodoSortKey` enum of `params.py`. -/
inductive TodoSortKey
  | created
  | updated
  | active_first
deriving DecidableEq, Repr

/-- Codepoint-wise lower-casing (Python `str.lower`, restricted to the
simple one-to-one case handled by `Char.toLower`). -/
def lowerStr (s : String) : String := String.mk (s.data.map Char.toLower)

/-- Embedding of `params.parse_todo_filter_status` /
`normalize_todo_filter_status` on a raw query value: strip, lower-case,
and fall back to `all` on absent, empty, or unrecognized input. -/
def parse_todo_filter_status (raw : Option String) : TodoFilterStatus :=
  match raw with
  | none => .all
  | some s =>
      let v := lowerStr s.trim
      if v == "" then .all
      else if v == "all" then .all
      else if v == "active" then .active
      else if v == "completed" then .completed
      else .all

/-- Embedding of `params.parse_todo_sort_key` / `normalize_todo_sort_key`:
strip, lower-case, and fall back to `created` on absent, empty, or
unrecognized input. -/
def parse_todo_sort_key (raw : Option String) : TodoSortKey :=
  match raw with
  | none => .created
  | some s =>
      let v := lowerStr s.trim
      if v == "" then .created
      else if v == "created" then .created
      else if v == "updated" then .updated
      else if v == "active_first" then .active_first
      else .created

/-- Embedding of `params.parse_todo_search_query`: absent becomes the empty
string, otherwise leading/trailing whitespace is stripped. -/
def parse_todo_search_query (raw : Option String) : String :=
  match raw with
  | none => ""
  | some s => s.trim

-- =====================================================================
-- services.py: update content
-- =====================================================================

/-- Embedding of the result dataclass `UpdateTodoResult`. -/
structure UpdateTodoResult where
  success : Bool
  todo_item : Option TodoItem
  changed : Bool
  error : Option String
deriving DecidableEq, Repr

/-- Embedding of `services.update_todo_content`. The validation order, the
defaulting of `new_notes` to the empty string when the request carries a
notes field, the `changed_fields` computation, and the early return without
a save when nothing differs all follow the source. A save stamps
`updated_at` with the instant `now`. The maximum lengths are passed
explicitly (the source reads them from the model's field metadata,
255 and 1000). Returns the result and the (possibly updated) row. -/
def update_todo_content (todo_item : TodoItem) (new_description : String)
    (new_notes : Option String) (notes_in_request : Bool)
    (max_description_length max_notes_length : Nat) (now : Nat) :
    UpdateTodoResult × TodoItem :=
  if new_description == "" then
    ({ success := false, todo_item := some todo_item, changed := false,
       error := some "Todoを入力してください。" }, todo_item)
  else if max_description_length < new_description.length then
    ({ success := false, todo_item := some todo_item, changed := false,
       error := some s!"Todoは最大{max_description_length}文字までです。" }, todo_item)
  else
    let notes := if notes_in_request then some (new_notes.getD "") else new_notes
    if notes_in_request && decide (max_notes_length < (notes.getD "").length) then
      ({ success := false, todo_item := some todo_item, changed := false,
         error := some s!"メモは最大{max_notes_length}文字までです。" }, todo_item)
    else
      let desc_changed := new_description != todo_item.description
      let notes_changed := notes_in_request && notes.isSome && (notes.getD "") != todo_item.notes
      if !desc_changed && !notes_changed then
        ({ success := true, todo_item := some todo_item, changed := false,
           error := none }, todo_item)
      else
        let saved : TodoItem :=
          { todo_item with
              description := if desc_changed then new_description else todo_item.description,
              notes := if notes_changed then notes.getD "" else todo_item.notes,
              updated_at := now }
        ({ success := true, todo_item := some saved, changed := true, error := none }, saved)

-- =====================================================================
-- services.py: delete
-- =====================================================================

/-- Embedding of the result dataclass `DeleteResult`. -/
structure DeleteResult where
  success : Bool
  deleted_count : Nat
  description : Option String
deriving DecidableEq, Repr

/-- Embedding of `services.delete_completed_todos`:
`TodoItem.objects.filter(user_id=user_id, completed=True).delete()` removes
exactly the matching rows and reports how many were removed. -/
def delete_completed_todos (store : Store) (user_id : Nat) : DeleteResult × Store :=
  let removed := store.filter (fun t => t.user_id == user_id && t.completed)
  ({ success := true, deleted_count := removed.length, description := none },
   store.filter (fun t => !(t.user_id == user_id && t.completed)))

/-- Embedding of the body of `delete_views.delete_completed_todo_items`
(after its DELETE-method guard, which is modelled with the other method
guards): the view parses the search/filter/sort query parameters but the
deletion itself is `delete_completed_todos(user_id)`, which ignores them;
the parameters only steer the re-rendered list fragment (rendering is not
modelled — no claim concerns the HTML). -/
def delete_completed_todo_items_view (store : Store) (user_id : Nat)
    (raw_q raw_status raw_sort : Option String) : DeleteResult × Store :=
  let _query := parse_todo_search_query raw_q
  let _status := parse_todo_filter_status raw_status
  let _sort := parse_todo_sort_key raw_sort
  delete_completed_todos store user_id

-- =====================================================================
-- params.py: page number; queries.py: paginated list
-- =====================================================================

/-- The raw `page` query parameter as seen by `params.parse_page_number`:
absent (`None`), a value on which Python `int()` raises
(TypeError/ValueError), or a value parsing to the integer `n`. -/
inductive RawPage
  | absent
  | unparsable
  | value (n : Int)
deriving DecidableEq, Repr

/-- Embedding of `params.parse_page_number`: absent or unparsable input
yields the default, a parsed value below 1 yields the default, anything
else is returned (the callers pass `DEFAULT_PAGE = 1`). -/
def parse_page_number (raw : RawPage) (default : Int) : Int :=
  match raw with
  | .absent => default
  | .unparsable => default
  | .value n => if n < 1 then default else n

/-- A page as returned by Django `Paginator.get_page`. -/
structure Page where
  object_list : List TodoItem
  number : Nat
  num_pages : Nat
  count : Nat
deriving DecidableEq, Repr

/-- Modelled from the spec: the page count of Django's `Paginator`
(framework code, absent from src/) — the ceiling of count / per_page, and
at least 1 because an empty result still has one empty first page. -/
def num_pages_of (count per_page : Nat) : Nat :=
  max 1 ((count + per_page - 1) / per_page)

/-- Modelled from the spec: Django `Paginator.get_page` (framework code,
absent from src/) — "requesting a page number beyond the last valid page
returns the last page, not an empty/error result". A number below 1 also
falls back to the last page (Django raises EmptyPage and `get_page`
catches it with the last page); that branch is unreachable through
`parse_page_number`, which never returns less than 1. -/
def paginator_get_page (items : List TodoItem) (per_page : Nat) (page_number : Int) : Page :=
  let np := num_pages_of items.length per_page
  let n : Nat := if page_number < 1 then np else min page_number.toNat np
  { object_list := (items.drop ((n - 1) * per_page)).take per_page,
    number := n, num_pages := np, count := items.length }

/-- Generic insertion step for the embedding of `order_by`. -/
def insertByLe (le : TodoItem → TodoItem → Bool) (t : TodoItem) :
    List TodoItem → List TodoItem
  | [] => [t]
  | h :: rest => if le t h then t :: h :: rest else h :: insertByLe le t rest

/-- Generic insertion sort for the embedding of `order_by`. -/
def sortByLe (le : TodoItem → TodoItem → Bool) : List TodoItem → List TodoItem
  | [] => []
  | h :: rest => insertByLe le h (sortByLe le rest)

/-- Comparator for `order_by("-created_at")`. -/
def leCreatedDesc (a b : TodoItem) : Bool :=
  decide (b.created_at ≤ a.created_at)

/-- Comparator for `order_by("-updated_at", "-created_at")`. -/
def leUpdatedDesc (a b : TodoItem) : Bool :=
  decide (b.updated_at < a.updated_at) ||
    (decide (a.updated_at = b.updated_at) && decide (b.created_at ≤ a.created_at))

/-- Comparator for `order_by("completed", "-created_at")`: ascending on
`completed` (False before True), then newest first. -/
def leActiveFirst (a b : TodoItem) : Bool :=
  (!a.completed && b.completed) ||
    (decide (a.completed = b.completed) && decide (b.created_at ≤ a.created_at))

/-- Prefix test on character lists (helper for `icontains`). -/
def isPrefixChars : List Char → List Char → Bool
  | [], _ => true
  | _ :: _, [] => false
  | a :: as, b :: bs => a == b && isPrefixChars as bs

/-- Substring test on character lists (helper for `icontains`). -/
def isSubChars (needle : List Char) : List Char → Bool
  | [] => needle.isEmpty
  | h :: rest => isPrefixChars needle (h :: rest) || isSubChars needle rest

/-- Embedding of the ORM lookup `description__icontains=query`:
case-insensitive substring match (lower-casing per codepoint). -/
def icontains (description query : String) : Bool :=
  isSubChars (lowerStr query).data (lowerStr description).data

/-- Embedding of `queries.get_paginated_todos`: filter to the owner, apply
the status filter, apply the search filter when `query` is non-empty
(Python string truthiness), order by the sort key, then paginate. The
`status` and `sort_key` arguments arrive already normalised (the views
pass enum values and `normalize_*` is the identity on enum input); the
final `Paginator.get_page` step is modelled from the spec, see
`paginator_get_page`. -/
def get_paginated_todos (store : Store) (user_id : Nat) (page_number : Int)
    (per_page : Nat) (query : String) (status : TodoFilterStatus)
    (sort_key : TodoSortKey) : Page :=
  let l0 := store.filter (fun t => t.user_id == user_id)
  let l1 :=
    match status with
    | .active => l0.filter (fun t => t.completed == false)
    | .completed => l0.filter (fun t => t.completed == true)
    | .all => l0
  let l2 := if query != "" then l1.filter (fun t => icontains t.description query) else l1
  let l3 :=
    match sort_key with
    | .updated => sortByLe leUpdatedDesc l2
    | .active_first => sortByLe leActiveFirst l2
    | .created => sortByLe leCreatedDesc l2
  paginator_get_page l3 per_page page_number

-- =====================================================================
-- views: HTTP method guards
-- =====================================================================

/-- Embedding of `shared.enums.RequestMethod`. -/
inductive Method
  | get
  | post
  | put
  | delete
  | patch
  | head
  | options
deriving DecidableEq, Fintype, Repr

/-- The view functions of the todo app (under `todo/views/`).
`todo_item_row` is the row-fragment view (path `item/<id>/`, whose view
function carries the suffix "_partial" in the source). -/
inductive Endpoint
  | todo_list
  | todo_items
  | create_todo_item
  | update_todo_item
  | edit_todo_item
  | todo_item_row
  | delete_todo_item
  | delete_all_todo_items
  | delete_completed_todo_items
  | enter_focus_mode
  | exit_focus_mode
deriving DecidableEq, Fintype, Repr

/-- The method guard at the head of each view function: `some s` means the
request is rejected immediately with HTTP status `s`, `none` means the view
proceeds. `todo_list` and `todo_items` have no guard. `create_todo_item`
rejects a non-POST with 400 Bad Request (`create_views.py` line 37-38, and
its test `test_create_with_get_method` asserts 400); every other guarded
view rejects with 405 Method Not Allowed. -/
def method_guard_status : Endpoint → Method → Option Nat
  | .todo_list, _ => none
  | .todo_items, _ => none
  | .create_todo_item, m => if m = .post then none else some 400
  | .update_todo_item, m => if m = .post then none else some 405
  | .edit_todo_item, m => if m = .get ∨ m = .post then none else some 405
  | .todo_item_row, m => if m = .get then none else some 405
  | .delete_todo_item, m => if m = .delete then none else some 405
  | .delete_all_todo_items, m => if m = .delete then none else some 405
  | .delete_completed_todo_items, m => if m = .delete then none else some 405
  | .enter_focus_mode, m => if m = .get then none else some 405
  | .exit_focus_mode, m => if m = .get then none else some 405

-- =====================================================================
-- queries.py / update view: owner-scoped lookup
-- =====================================================================

/-- Embedding of `queries.get_todo_by_id`:
`TodoItem.objects.filter(id=item_id, user_id=user_id).first()` — the lookup
is scoped to the owner, so a row owned by someone else is as invisible as a
missing id. -/
def get_todo_by_id (store : Store) (item_id user_id : Nat) : Option TodoItem :=
  (store.filter (fun t => t.id == item_id && t.user_id == user_id)).head?

/-- Embedding of `params.TodoFilterStatus.value`. -/
def statusValue : TodoFilterStatus → String
  | .all => "all"
  | .active => "active"
  | .completed => "completed"

/-- Embedding of `params.TodoSortKey.value`. -/
def sortValue : TodoSortKey → String
  | .created => "created"
  | .updated => "updated"
  | .active_first => "active_first"

/-- The observable response of the toggle view `update_todo_item`,
abstracted from the rendered HTML: the 405 rejection, the generic 404 page
(`get_object_or_404` raises `Http404`, rendered identically whatever the
reason for the miss), or the 200 row fragment together with what it is
rendered from. -/
inductive ToggleResponse
  | methodNotAllowed
  | notFound
  | ok (row : TodoItem) (old_status : Bool) (needs_refresh : Bool)
deriving DecidableEq, Repr

/-- Embedding of `update_views.update_todo_item`: non-POST is rejected with
405; `get_object_or_404(TodoItem, id=item_id, user_id=user_id)` (the same
owner-scoped filter as `get_todo_by_id`) yields the 404 response when no
row matches; otherwise the row's completion is toggled and saved and the
row fragment (plus OOB fragments, not modelled) is returned with 200. -/
def update_todo_item_view (store : Store) (method : Method) (user_id item_id : Nat)
    (status_filter : TodoFilterStatus) (sort_key : TodoSortKey) (now : Nat) :
    ToggleResponse × Store :=
  if method ≠ .post then (.methodNotAllowed, store)
  else
    match get_todo_by_id store item_id user_id with
    | none => (.notFound, store)
    | some t =>
        let out := toggle_todo_completion t now
        (.ok out.2 out.1.old_status
            (needs_list_refresh_on_toggle (statusValue status_filter) (sortValue sort_key)),
         store.map (fun x => if x.id == t.id then out.2 else x))

-- =====================================================================
-- Sorting helper lemmas
-- =====================================================================

theorem length_insertById (t : TodoItem) (l : List TodoItem) :
    (insertById t l).length = l.length + 1 := by
  induction l with
  | nil => rfl
  | cons h rest ih =>
      simp only [insertById]
      split
      · simp
      · simp [ih]

theorem length_sortByIdAsc (l : List TodoItem) :
    (sortByIdAsc l).length = l.length := by
  induction l with
  | nil => rfl
  | cons h rest ih => simp [sortByIdAsc, length_insertById, ih]

theorem take_one_isEmpty (l : List TodoItem) : (l.take 1).isEmpty = l.isEmpty := by
  cases l <;> rfl

theorem isEmpty_false_iff_length_pos (l : List TodoItem) :
    l.isEmpty = false ↔ 0 < l.length := by
  cases l <;> simp

/-- The limit check, for a positive limit, is exactly a count comparison:
the `max_items`-th row exists iff the user's count is at least `max_items`. -/
theorem is_todo_limit_reached_iff_count (store : Store) (user_id : Nat)
    (max_items : Int) (hm : 1 ≤ max_items) :
    is_todo_limit_reached store user_id max_items = true ↔
      max_items ≤ ((userTodos store user_id).length : Int) := by
  have hnot : ¬ max_items ≤ 0 := by omega
  have hlen : ((sortByIdAsc (userTodos store user_id)).drop (max_items - 1).toNat).length
      = (userTodos store user_id).length - (max_items - 1).toNat := by
    simp [length_sortByIdAsc]
  simp only [is_todo_limit_reached, if_neg hnot, Bool.not_eq_true']
  rw [take_one_isEmpty, isEmpty_false_iff_length_pos, hlen]
  omega

/-- Appending a row owned by `user_id` raises that user's count by one. -/
theorem userTodos_append_own (store : Store) (user_id : Nat) (item : TodoItem)
    (h : item.user_id = user_id) :
    (userTodos (store ++ [item]) user_id).length = (userTodos store user_id).length + 1 := by
  simp [userTodos, List.filter_append, h]

-- =====================================================================
-- Claim C3
-- =====================================================================

/-- C3: for a limit of at least 1, `create_todo` fails exactly when the
owner already has at least `max_items` rows (the slice-existence check is
equivalent to `count >= max_items`); with `max_items - 1` rows it succeeds,
creates the task with `completed=false`, and brings the count to
`max_items`. -/
theorem C3_create_todo_limit (store : Store) (user_id : Nat) (description : String)
    (max_items : Int) (new_id now : Nat) (hm : 1 ≤ max_items) :
    ((create_todo store user_id description max_items new_id now).1.success = false ↔
      max_items ≤ ((userTodos store user_id).length : Int)) ∧
    (((userTodos store user_id).length : Int) = max_items - 1 →
      (create_todo store user_id description max_items new_id now).1.success = true ∧
      (∃ it, (create_todo store user_id description max_items new_id now).1.todo_item = some it ∧
        it.completed = false ∧ it.user_id = user_id ∧ it.description = description) ∧
      ((userTodos (create_todo store user_id description max_items new_id now).2 user_id).length : Int)
        = max_items) := by
  have hiff := is_todo_limit_reached_iff_count store user_id max_items hm
  constructor
  · constructor
    · intro h
      rw [← hiff]
      by_contra hfalse
      have : is_todo_limit_reached store user_id max_items = false := by
        cases hval : is_todo_limit_reached store user_id max_items
        · rfl
        · exact absurd hval hfalse
      simp [create_todo, this] at h
    · intro h
      have hlim : is_todo_limit_reached store user_id max_items = true := hiff.mpr h
      simp [create_todo, hlim]
  · intro hcount
    have hnotreach : ¬ (max_items ≤ ((userTodos store user_id).length : Int)) := by omega
    have hlim : is_todo_limit_reached store user_id max_items = false := by
      cases hval : is_todo_limit_reached store user_id max_items
      · rfl
      · exact absurd (hiff.mp hval) hnotreach
    refine ⟨by simp [create_todo, hlim],
      ⟨{ id := new_id, user_id := user_id, description := description,
         notes := "", completed := false, created_at := now, updated_at := now },
        by simp [create_todo, hlim], rfl, rfl, rfl⟩, ?_⟩
    have happ := userTodos_append_own store user_id
      { id := new_id, user_id := user_id, description := description,
        notes := "", completed := false, created_at := now, updated_at := now } rfl
    simp only [create_todo, hlim, Bool.false_eq_true, if_false]
    rw [happ]
    push_cast
    omega

/-- Witness for C3: an owner with one task and a limit of 2 can create a
second task (reaching the limit), and the failure condition matches the
count comparison. -/
theorem C3_create_todo_limit_witness :
    let t0 : TodoItem :=
      { id := 1, user_id := 5, description := "x", notes := "",
        completed := false, created_at := 0, updated_at := 0 }
    (create_todo [t0] 5 "y" 2 2 1).1.success = true ∧
    ((userTodos (create_todo [t0] 5 "y" 2 2 1).2 5).length : Int) = 2 := by
  have h := C3_create_todo_limit
    [{ id := 1, user_id := 5, description := "x", notes := "",
       completed := false, created_at := 0, updated_at := 0 }]
    5 "y" 2 2 1 (by decide)
  have h2 := h.2 (by decide)
  exact ⟨h2.1, h2.2.2⟩

-- =====================================================================
-- Claim C10
-- =====================================================================

/-- C10: for any non-positive limit, `is_todo_limit_reached` is true for
every store (it never consults the rows), so `create_todo` with a
non-positive `max_items` always fails with the limit message, even for an
owner with zero tasks. -/
theorem C10_nonpositive_limit (user_id : Nat) (max_items : Int) (hm : max_items ≤ 0) :
    (∀ store : Store, is_todo_limit_reached store user_id max_items = true) ∧
    (∀ (store : Store) (description : String) (new_id now : Nat),
      (create_todo store user_id description max_items new_id now).1.success = false ∧
      (create_todo store user_id description max_items new_id now).1.error =
        some s!"Todoは1ユーザーあたり最大{max_items}件までです。不要なTodoを削除してください。") ∧
    (create_todo [] user_id "x" max_items 1 0).1.success = false := by
  have hlim : ∀ store : Store, is_todo_limit_reached store user_id max_items = true := by
    intro store
    simp [is_todo_limit_reached, hm]
  refine ⟨hlim, ?_, ?_⟩
  · intro store description new_id now
    constructor
    · simp [create_todo, hlim store]
    · simp [create_todo, hlim store]
  · simp [create_todo, hlim []]

/-- Witness for C10 at limit 0 and the empty store. -/
theorem C10_nonpositive_limit_witness :
    is_todo_limit_reached [] 3 0 = true ∧
    (create_todo [] 3 "x" 0 1 0).1.success = false := by
  have h := C10_nonpositive_limit 3 0 (by decide)
  exact ⟨h.1 [], h.2.2⟩

-- =====================================================================
-- Claim C6
-- =====================================================================

/-- C6: updating a row with a description and notes identical to its current
values (on a row satisfying the model invariants: description non-empty and
within the limit, notes within the limit) returns success with
`changed=false` and performs no write: the returned row is the original one,
`updated_at` included. The same holds when the request carries no notes
field. -/
theorem C6_update_identical_noop (t : TodoItem) (maxd maxn now : Nat)
    (hne : t.description ≠ "") (hd : t.description.length ≤ maxd)
    (hn : t.notes.length ≤ maxn) :
    update_todo_content t t.description (some t.notes) true maxd maxn now =
      ({ success := true, todo_item := some t, changed := false, error := none }, t) ∧
    update_todo_content t t.description none false maxd maxn now =
      ({ success := true, todo_item := some t, changed := false, error := none }, t) := by
  have h1 : (t.description == "") = false := beq_eq_false_iff_ne.mpr hne
  have h2 : ¬ maxd < t.description.length := Nat.not_lt.mpr hd
  have h3 : ¬ maxn < t.notes.length := Nat.not_lt.mpr hn
  constructor
  · simp [update_todo_content, h1, h2, h3]
  · simp [update_todo_content, h1, h2]

/-- Witness for C6 at a concrete row within the limits. -/
theorem C6_update_identical_noop_witness :
    update_todo_content
      { id := 2, user_id := 3, description := "buy milk", notes := "n",
        completed := false, created_at := 0, updated_at := 5 }
      "buy milk" (some "n") true 255 1000 9 =
      ({ success := true,
         todo_item := some { id := 2, user_id := 3, description := "buy milk", notes := "n",
                             completed := false, created_at := 0, updated_at := 5 },
         changed := false, error := none },
       { id := 2, user_id := 3, description := "buy milk", notes := "n",
         completed := false, created_at := 0, updated_at := 5 }) :=
  (C6_update_identical_noop
    { id := 2, user_id := 3, description := "buy milk", notes := "n",
      completed := false, created_at := 0, updated_at := 5 }
    255 1000 9 (by decide) (by decide) (by decide)).1

-- =====================================================================
-- Claim C9
-- =====================================================================

/-- C9: `update_todo_content` fails exactly on an empty description, an
over-long description, or over-long provided notes; and whenever it fails
the target row is returned entirely unchanged (`changed=false`, no save, so
description, notes, completed and `updated_at` keep their prior values). -/
theorem C9_update_error_frame (t : TodoItem) (d : String) (notes : Option String)
    (nreq : Bool) (maxd maxn now : Nat) :
    ((update_todo_content t d notes nreq maxd maxn now).1.success = false ↔
      (d = "" ∨ maxd < d.length ∨ (nreq = true ∧ maxn < (notes.getD "").length))) ∧
    ((update_todo_content t d notes nreq maxd maxn now).1.success = false →
      (update_todo_content t d notes nreq maxd maxn now).2 = t ∧
      (update_todo_content t d notes nreq maxd maxn now).1.changed = false) := by
  cases nreq with
  | false =>
      simp only [update_todo_content]
      split_ifs <;> simp_all
  | true =>
      simp only [update_todo_content]
      split_ifs <;> simp_all

/-- Witness for C9: a concrete failing update (empty description) leaves the
row unchanged. -/
theorem C9_update_error_frame_witness :
    (update_todo_content
      { id := 4, user_id := 1, description := "keep", notes := "memo",
        completed := true, created_at := 2, updated_at := 3 }
      "" none false 255 1000 99).1.success = false ∧
    (update_todo_content
      { id := 4, user_id := 1, description := "keep", notes := "memo",
        completed := true, created_at := 2, updated_at := 3 }
      "" none false 255 1000 99).2 =
      { id := 4, user_id := 1, description := "keep", notes := "memo",
        completed := true, created_at := 2, updated_at := 3 } := by
  have h := C9_update_error_frame
    { id := 4, user_id := 1, description := "keep", notes := "memo",
      completed := true, created_at := 2, updated_at := 3 }
    "" none false 255 1000 99
  have hfail := h.1.mpr (Or.inl rfl)
  exact ⟨hfail, (h.2 hfail).1⟩

theorem length_filter_add_length_filter_not (p : TodoItem → Bool) (l : List TodoItem) :
    (l.filter p).length + (l.filter (fun t => !(p t))).length = l.length := by
  induction l with
  | nil => rfl
  | cons h rest ih => cases hp : p h <;> simp [List.filter_cons, hp, ← ih] <;> omega

-- =====================================================================
-- Claim C4
-- =====================================================================

/-- C4: the bulk delete of completed tasks removes exactly the owner's
completed rows and keeps every other row (the remaining store is a sublist
of the original, a row remains iff it was there and is not an owned
completed row), reports the number removed, and is independent of whatever
search/filter/sort parameters the request carried. -/
theorem C4_delete_completed_frame (store : Store) (uid : Nat)
    (raw_q raw_status raw_sort : Option String) :
    (∀ t : TodoItem,
        t ∈ (delete_completed_todo_items_view store uid raw_q raw_status raw_sort).2 ↔
          (t ∈ store ∧ ¬(t.user_id = uid ∧ t.completed = true))) ∧
    (delete_completed_todo_items_view store uid raw_q raw_status raw_sort).2.Sublist store ∧
    (delete_completed_todo_items_view store uid raw_q raw_status raw_sort).1.deleted_count +
        (delete_completed_todo_items_view store uid raw_q raw_status raw_sort).2.length
      = store.length ∧
    (delete_completed_todo_items_view store uid raw_q raw_status raw_sort).1.deleted_count
      = (store.filter (fun t => t.user_id == uid && t.completed)).length ∧
    (∀ raw_q2 raw_status2 raw_sort2 : Option String,
        delete_completed_todo_items_view store uid raw_q2 raw_status2 raw_sort2
          = delete_completed_todo_items_view store uid raw_q raw_status raw_sort) := by
  refine ⟨?_, ?_, ?_, rfl, fun _ _ _ => rfl⟩
  · intro t
    simp only [delete_completed_todo_items_view, delete_completed_todos, List.mem_filter,
      Bool.not_eq_true', Bool.and_eq_false_iff, beq_eq_false_iff_ne, ne_eq,
      Bool.not_eq_true]
    constructor
    · rintro ⟨hmem, h⟩
      exact ⟨hmem, by rcases h with h | h <;> simp_all⟩
    · rintro ⟨hmem, h⟩
      refine ⟨hmem, ?_⟩
      by_cases hu : t.user_id = uid
      · right; simp_all
      · left; simp_all
  · exact List.filter_sublist _
  · exact length_filter_add_length_filter_not _ store

-- =====================================================================
-- Claim C1
-- =====================================================================

/-- C1: for every status filter and sort key, `needs_list_refresh_on_toggle`
returns true iff the filter is not "all" or the sort key is "active_first" or
"updated"; in particular with status filter "active" it returns true. -/
theorem C1_needs_refresh_on_toggle_iff :
    (∀ status_filter sort_key : String,
        needs_list_refresh_on_toggle status_filter sort_key = true ↔
          (status_filter ≠ "all" ∨ sort_key = "active_first" ∨ sort_key = "updated")) ∧
    (∀ sort_key : String, needs_list_refresh_on_toggle "active" sort_key = true) := by
  constructor
  · intro status_filter sort_key
    simp [needs_list_refresh_on_toggle]
  · intro sort_key
    simp [needs_list_refresh_on_toggle]

theorem length_insertByLe (le : TodoItem → TodoItem → Bool) (t : TodoItem)
    (l : List TodoItem) : (insertByLe le t l).length = l.length + 1 := by
  induction l with
  | nil => rfl
  | cons h rest ih =>
      simp only [insertByLe]
      split
      · simp
      · simp [ih]

theorem length_sortByLe (le : TodoItem → TodoItem → Bool) (l : List TodoItem) :
    (sortByLe le l).length = l.length := by
  induction l with
  | nil => rfl
  | cons h rest ih => simp [sortByLe, length_insertByLe, ih]

/-- Clamping behaviour of the modelled paginator: a request beyond the last
page lands on the last page, which is non-empty whenever anything matched. -/
theorem paginator_get_page_clamps (items : List TodoItem) (pp : Nat) (p : Int)
    (hpp : 0 < pp)
    (hp : ((paginator_get_page items pp p).num_pages : Int) < p) :
    (paginator_get_page items pp p).number = (paginator_get_page items pp p).num_pages ∧
    (0 < (paginator_get_page items pp p).count →
      (paginator_get_page items pp p).object_list ≠ []) := by
  have hnum : (paginator_get_page items pp p).num_pages = num_pages_of items.length pp := rfl
  rw [hnum] at hp
  have hnp1 : 1 ≤ num_pages_of items.length pp := le_max_left 1 _
  have hplt : ¬ p < 1 := by omega
  have hle : num_pages_of items.length pp ≤ p.toNat := by omega
  have hmin : min p.toNat (num_pages_of items.length pp) = num_pages_of items.length pp :=
    Nat.min_eq_right hle
  constructor
  · show (if p < 1 then num_pages_of items.length pp
        else min p.toNat (num_pages_of items.length pp)) = num_pages_of items.length pp
    rw [if_neg hplt, hmin]
  · intro hcpos
    have hcpos2 : 0 < items.length := hcpos
    show (items.drop
        (((if p < 1 then num_pages_of items.length pp
            else min p.toNat (num_pages_of items.length pp)) - 1) * pp)).take pp ≠ []
    rw [if_neg hplt, hmin]
    have hnpval : num_pages_of items.length pp = (items.length - 1) / pp + 1 := by
      unfold num_pages_of
      have h1 : items.length + pp - 1 = (items.length - 1) + pp := by omega
      rw [h1, Nat.add_div_right _ hpp]
      exact Nat.max_eq_right (Nat.succ_le_succ (Nat.zero_le _))
    have hdivle : ((items.length - 1) / pp) * pp ≤ items.length - 1 :=
      Nat.div_mul_le_self _ _
    have hk : (num_pages_of items.length pp - 1) * pp < items.length := by
      rw [hnpval, Nat.add_sub_cancel]
      omega
    have hlenpos :
        0 < ((items.drop ((num_pages_of items.length pp - 1) * pp)).take pp).length := by
      rw [List.length_take, List.length_drop]
      exact lt_min hpp (by omega)
    intro hnil
    rw [hnil] at hlenpos
    simp at hlenpos

-- =====================================================================
-- Claim C5
-- =====================================================================

/-- C5: a `page` parameter that is absent, fails integer parsing, or is
below 1 normalises to page 1 (values of 1 or more pass through); and for
every owner, search, filter and sort, requesting a page number beyond the
last valid page returns the last page — non-empty whenever any task
matches — never an empty page or an error. -/
theorem C5_page_fallback_and_clamping :
    (parse_page_number .absent 1 = 1 ∧ parse_page_number .unparsable 1 = 1) ∧
    (∀ n : Int, n < 1 → parse_page_number (.value n) 1 = 1) ∧
    (∀ n : Int, 1 ≤ n → parse_page_number (.value n) 1 = n) ∧
    (∀ (store : Store) (user_id per_page : Nat) (query : String)
        (status : TodoFilterStatus) (sort_key : TodoSortKey) (p : Int),
      0 < per_page →
      ((get_paginated_todos store user_id p per_page query status sort_key).num_pages : Int) < p →
      (get_paginated_todos store user_id p per_page query status sort_key).number =
        (get_paginated_todos store user_id p per_page query status sort_key).num_pages ∧
      (0 < (get_paginated_todos store user_id p per_page query status sort_key).count →
        (get_paginated_todos store user_id p per_page query status sort_key).object_list ≠ [])) := by
  refine ⟨⟨rfl, rfl⟩, ?_, ?_, ?_⟩
  · intro n hn
    simp [parse_page_number, hn]
  · intro n hn
    simp only [parse_page_number, if_neg (by omega : ¬ n < 1)]
  · intro store user_id per_page query status sort_key p hpp hbeyond
    exact paginator_get_page_clamps _ per_page p hpp hbeyond

/-- Witness for C5: one task, page size 10, requested page 5 — the result
clamps to the single last page, which is non-empty. -/
theorem C5_page_fallback_and_clamping_witness :
    parse_page_number (.value 0) 1 = 1 ∧
    (get_paginated_todos
        [{ id := 1, user_id := 1, description := "a", notes := "",
           completed := false, created_at := 0, updated_at := 0 }]
        1 5 10 "" .all .created).number =
      (get_paginated_todos
        [{ id := 1, user_id := 1, description := "a", notes := "",
           completed := false, created_at := 0, updated_at := 0 }]
        1 5 10 "" .all .created).num_pages ∧
    (get_paginated_todos
        [{ id := 1, user_id := 1, description := "a", notes := "",
           completed := false, created_at := 0, updated_at := 0 }]
        1 5 10 "" .all .created).object_list ≠ [] := by
  have h := C5_page_fallback_and_clamping
  have h1 := h.2.1 0 (by decide)
  have h4 := h.2.2.2
    [{ id := 1, user_id := 1, description := "a", notes := "",
       completed := false, created_at := 0, updated_at := 0 }]
    1 10 "" .all .created 5 (by decide) (by decide)
  exact ⟨h1, h4.1, h4.2 (by decide)⟩

-- =====================================================================
-- Claim C2
-- =====================================================================

/-- C2 counterexample: invoking the create endpoint with an unsupported
verb (GET) is rejected with 400 Bad Request, not 405 Method Not Allowed. -/
theorem C2_counterexample_create_get_is_400 :
    method_guard_status .create_todo_item .get = some 400 ∧
    method_guard_status .create_todo_item .get ≠ some 405 := by
  decide

/-- C2 (amended): every guarded view other than the create view rejects an
unsupported verb with 405 (and the two unguarded list views reject
nothing); the create view rejects every non-POST verb with 400. -/
theorem C2_amended_method_guard :
    (∀ (e : Endpoint) (m : Method), e ≠ .create_todo_item →
        (method_guard_status e m = none ∨ method_guard_status e m = some 405)) ∧
    (∀ m : Method, m ≠ .post → method_guard_status .create_todo_item m = some 400) ∧
    (∀ m : Method, m ≠ .post → method_guard_status .update_todo_item m = some 405) ∧
    (∀ m : Method, method_guard_status .todo_list m = none ∧
        method_guard_status .todo_items m = none) := by
  decide

/-- Witness for C2 (amended) at concrete endpoints and verbs. -/
theorem C2_amended_method_guard_witness :
    method_guard_status .update_todo_item .get = some 405 ∧
    method_guard_status .create_todo_item .get = some 400 :=
  ⟨C2_amended_method_guard.2.2.1 .get (by decide),
   C2_amended_method_guard.2.1 .get (by decide)⟩

theorem get_todo_by_id_eq_none (store : Store) (item_id user_id : Nat)
    (h : ∀ t ∈ store, t.id = item_id → t.user_id ≠ user_id) :
    get_todo_by_id store item_id user_id = none := by
  unfold get_todo_by_id
  have hfil : store.filter (fun t => t.id == item_id && t.user_id == user_id) = [] := by
    rw [List.filter_eq_nil_iff]
    intro a ha
    simp only [Bool.and_eq_true, beq_iff_eq, not_and]
    intro hid
    exact h a ha hid
  rw [hfil]
  rfl

-- =====================================================================
-- Claim C7
-- =====================================================================

/-- C7: a POST to the toggle endpoint addressing a task owned by a
different user is answered exactly like one addressing an id that does not
exist at all: both runs produce the same generic 404 response (and leave
the store untouched), so the caller cannot distinguish them. `s1` and `s2`
are any two stores in which no row with the requested id belongs to the
caller — e.g. one where the id is absent and one where it belongs to
another owner. -/
theorem C7_cross_owner_indistinguishable (s1 s2 : Store) (user_id item_id : Nat)
    (sf : TodoFilterStatus) (sk : TodoSortKey) (now : Nat)
    (h1 : ∀ t ∈ s1, t.id = item_id → t.user_id ≠ user_id)
    (h2 : ∀ t ∈ s2, t.id = item_id → t.user_id ≠ user_id) :
    (update_todo_item_view s1 .post user_id item_id sf sk now).1 = .notFound ∧
    (update_todo_item_view s1 .post user_id item_id sf sk now).1 =
      (update_todo_item_view s2 .post user_id item_id sf sk now).1 ∧
    (update_todo_item_view s1 .post user_id item_id sf sk now).2 = s1 := by
  have e1 := get_todo_by_id_eq_none s1 item_id user_id h1
  have e2 := get_todo_by_id_eq_none s2 item_id user_id h2
  refine ⟨?_, ?_, ?_⟩ <;> simp [update_todo_item_view, e1, e2]

/-- Witness for C7: the empty store (the id never existed) and a store
where id 9 belongs to owner 2 are indistinguishable to caller 1. -/
theorem C7_cross_owner_indistinguishable_witness :
    (update_todo_item_view [] Method.post 1 9 .all .created 5).1 = .notFound ∧
    (update_todo_item_view [] Method.post 1 9 .all .created 5).1 =
      (update_todo_item_view
        [{ id := 9, user_id := 2, description := "secret", notes := "",
           completed := false, created_at := 0, updated_at := 0 }]
        Method.post 1 9 .all .created 5).1 := by
  have h := C7_cross_owner_indistinguishable []
    [{ id := 9, user_id := 2, description := "secret", notes := "",
       completed := false, created_at := 0, updated_at := 0 }]
    1 9 .all .created 5 (by decide) (by decide)
  exact ⟨h.1, h.2.1⟩

-- =====================================================================
-- Claim C8
-- =====================================================================

/-- C8: toggling always succeeds, flips `completed`, reports the previous
value in `old_status`, and toggling twice restores the original `completed`
while `updated_at` strictly advances on each application (all other fields
are untouched). -/
theorem C8_toggle_involutive (t : TodoItem) (now1 now2 : Nat)
    (h1 : t.updated_at < now1) (h2 : now1 < now2) :
    let r1 := (toggle_todo_completion t now1).1
    let t1 := (toggle_todo_completion t now1).2
    let r2 := (toggle_todo_completion t1 now2).1
    let t2 := (toggle_todo_completion t1 now2).2
    r1.success = true ∧ r1.old_status = t.completed ∧
    t1.completed = !t.completed ∧
    r2.success = true ∧ r2.old_status = !t.completed ∧
    t2.completed = t.completed ∧
    t.updated_at < t1.updated_at ∧ t1.updated_at < t2.updated_at ∧
    t2.id = t.id ∧ t2.user_id = t.user_id ∧ t2.description = t.description ∧
    t2.notes = t.notes ∧ t2.created_at = t.created_at := by
  simp [toggle_todo_completion]
  exact ⟨h1, h2⟩

/-- Witness for C8 at a concrete task and instants. -/
theorem C8_toggle_involutive_witness :
    let t : TodoItem :=
      { id := 1, user_id := 7, description := "a", notes := "",
        completed := false, created_at := 0, updated_at := 0 }
    let t1 := (toggle_todo_completion t 1).2
    let t2 := (toggle_todo_completion t1 2).2
    t2.completed = t.completed ∧ t1.completed = true ∧
    t.updated_at < t1.updated_at ∧ t1.updated_at < t2.updated_at := by
  have h := C8_toggle_involutive
    { id := 1, user_id := 7, description := "a", notes := "",
      completed := false, created_at := 0, updated_at := 0 }
    1 2 (by decide) (by decide)
  exact ⟨h.2.2.2.2.2.1, by decide, h.2.2.2.2.2.2.1, h.2.2.2.2.2.2.2.1⟩

end Yarukoto
